import Mathlib

/-!
Verification of `src/theia/sfm/estimators/estimate_calibrated_absolute_pose.cc`
(TheiaSfM, calibrated absolute pose estimation).

Shallow embedding conventions:
* `double` is modelled by exact rationals `ℚ`; the claims under study are
  structural (order of operations, data flow, state handling), not about
  floating-point rounding.  Field division in `ℚ` totalises division by zero
  as `0` (where IEEE doubles produce inf/nan); no theorem below relies on the
  value at a zero denominator.
* Eigen's fixed-size `Vector2d`/`Vector3d`/`Matrix3d` become the structures
  `Vec2`/`Vec3`/`Mat3` with componentwise operations.
* The external three-point solver `PoseFromThreePoints` (declared in
  `theia/sfm/pose/perspective_three_point.h`, outside this translation unit)
  is a parameter of type `P3PSolver`: it receives the 3 features and 3 world
  points and either fails (`none`, the C++ `return false`) or fills the two
  parallel scratch vectors with candidate (rotation, translation) pairs.
* The external RANSAC engine produced by `CreateAndInitializeRansacVariant`
  is a parameter of type `RansacFactory`.
* The estimator's scratch buffers (`rotations`, `translations`, mutated
  through a const_cast in the C++) are modelled by explicit state passing:
  `EstimateModel` consumes and returns an `EstimatorState`.
* Reading `correspondences[i]` past the end of the input vector is undefined
  behaviour in the C++; the model returns `none` in exactly that case, so
  `none` marks the out-of-bounds fault while `some (poses, ok)` is the
  defined result (the filled output vector and the returned `bool`).
-/

namespace TheiaPose

/-- Planar (2D) vector over exact rationals (Eigen `Vector2d`). -/
structure Vec2 where
  x : ℚ
  y : ℚ
deriving DecidableEq

/-- Spatial (3D) vector over exact rationals (Eigen `Vector3d`). -/
structure Vec3 where
  x : ℚ
  y : ℚ
  z : ℚ
deriving DecidableEq

/-- Componentwise subtraction of 2D vectors. -/
def Vec2.sub (a b : Vec2) : Vec2 := ⟨a.x - b.x, a.y - b.y⟩

/-- Eigen `squaredNorm` of a 2D vector. -/
def Vec2.squaredNorm (a : Vec2) : ℚ := a.x * a.x + a.y * a.y

/-- Componentwise subtraction of 3D vectors. -/
def Vec3.sub (a b : Vec3) : Vec3 := ⟨a.x - b.x, a.y - b.y, a.z - b.z⟩

/-- Componentwise negation of a 3D vector. -/
def Vec3.neg (a : Vec3) : Vec3 := ⟨-a.x, -a.y, -a.z⟩

/-- Dot product of 3D vectors. -/
def Vec3.dot (a b : Vec3) : ℚ := a.x * b.x + a.y * b.y + a.z * b.z

/-- Eigen `hnormalized`: perspective division of a 3D vector by its third
(depth) coordinate, yielding a 2D point. -/
def Vec3.hnormalized (v : Vec3) : Vec2 := ⟨v.x / v.z, v.y / v.z⟩

/-- Square 3×3 matrix over exact rationals, stored as rows (Eigen
`Matrix3d`). -/
structure Mat3 where
  r0 : Vec3
  r1 : Vec3
  r2 : Vec3
deriving DecidableEq

/-- Matrix–vector product. -/
def Mat3.mulVec (m : Mat3) (v : Vec3) : Vec3 := ⟨m.r0.dot v, m.r1.dot v, m.r2.dot v⟩

/-- Matrix transpose. -/
def Mat3.transpose (m : Mat3) : Mat3 :=
  ⟨⟨m.r0.x, m.r1.x, m.r2.x⟩, ⟨m.r0.y, m.r1.y, m.r2.y⟩, ⟨m.r0.z, m.r1.z, m.r2.z⟩⟩

/-- Matrix–matrix product. -/
def Mat3.mul (a b : Mat3) : Mat3 :=
  let bt := b.transpose
  ⟨⟨a.r0.dot bt.r0, a.r0.dot bt.r1, a.r0.dot bt.r2⟩,
   ⟨a.r1.dot bt.r0, a.r1.dot bt.r1, a.r1.dot bt.r2⟩,
   ⟨a.r2.dot bt.r0, a.r2.dot bt.r1, a.r2.dot bt.r2⟩⟩

/-- Determinant of a 3×3 matrix. -/
def Mat3.det (m : Mat3) : ℚ :=
  m.r0.x * (m.r1.y * m.r2.z - m.r1.z * m.r2.y)
    - m.r0.y * (m.r1.x * m.r2.z - m.r1.z * m.r2.x)
    + m.r0.z * (m.r1.x * m.r2.y - m.r1.y * m.r2.x)

/-- The identity 3×3 matrix. -/
def Mat3.identity : Mat3 := ⟨⟨1, 0, 0⟩, ⟨0, 1, 0⟩, ⟨0, 0, 1⟩⟩

/-- A proper rotation: orthonormal (`Rᵗ·R = I`) with determinant `+1`. -/
def IsProperRotation (m : Mat3) : Prop :=
  m.transpose.mul m = Mat3.identity ∧ m.det = 1

/-- `theia::FeatureCorrespondence2D3D`: an observed normalized 2D feature
paired with a 3D world point. -/
structure FeatureCorrespondence2D3D where
  feature : Vec2
  world_point : Vec3
deriving DecidableEq

/-- `theia::CalibratedAbsolutePose`: a world-to-camera rotation and a camera
center in world coordinates. -/
structure CalibratedAbsolutePose where
  rotation : Mat3
  position : Vec3
deriving DecidableEq

/-- The scratch buffers of `CalibratedAbsolutePoseEstimator`: the member
vectors `rotations` and `translations`, reused across invocations. -/
structure EstimatorState where
  rotations : List Mat3
  translations : List Vec3
deriving DecidableEq

/-- Interface type of the external minimal solver `PoseFromThreePoints`:
given 3 features and 3 world points it either reports failure (`none`) or
returns the candidate (rotation, camera-frame translation) pairs with which
it fills the two parallel output vectors. -/
def P3PSolver : Type :=
  (Vec2 × Vec2 × Vec2) → (Vec3 × Vec3 × Vec3) → Option (List (Mat3 × Vec3))

/-- `CalibratedAbsolutePoseEstimator::SampleSize`: returns 3 (as a `double`
in the C++, hence valued in `ℚ` here).  The estimator's only state is its
scratch buffers, so the state is the argument. -/
def SampleSize (_ : EstimatorState) : ℚ := 3

/-- `CalibratedAbsolutePoseEstimator::EstimateModel`.
Reads `correspondences[0..2]` (out of bounds — undefined behaviour — when
fewer than 3 are supplied: that case is `none`), clears the scratch buffers,
invokes the solver, and converts each returned (rotation, translation) pair
into a pose with `position = -rotationᵗ · translation`.  The C++ loop indexes
the two equal-length parallel vectors `rotations[i]`/`translations[i]`,
modelled by `List.zip`.  Returns the output vector's contents together with
the returned `bool` (`absolute_poses->size() > 0`), plus the new scratch
state. -/
def EstimateModel (solver : P3PSolver)
    (correspondences : List FeatureCorrespondence2D3D) (s : EstimatorState) :
    Option (List CalibratedAbsolutePose × Bool) × EstimatorState :=
  match correspondences with
  | c0 :: c1 :: c2 :: _ =>
    let features := (c0.feature, c1.feature, c2.feature)
    let world_points := (c0.world_point, c1.world_point, c2.world_point)
    match solver features world_points with
    | none => (some ([], false), ⟨[], []⟩)
    | some pairs =>
      let s2 : EstimatorState := ⟨pairs.map Prod.fst, pairs.map Prod.snd⟩
      let absolute_poses :=
        (s2.rotations.zip s2.translations).map fun rt =>
          { rotation := rt.1, position := (rt.1.transpose.mulVec rt.2).neg
            : CalibratedAbsolutePose }
      (some (absolute_poses, decide (0 < absolute_poses.length)), s2)
  | _ => (none, s)

/-- `CalibratedAbsolutePoseEstimator::Error`: squared reprojection error of a
correspondence under a candidate pose, computed over the source's separate
intermediate values. -/
def Error (correspondence : FeatureCorrespondence2D3D)
    (absolute_pose : CalibratedAbsolutePose) : ℚ :=
  let translated := correspondence.world_point.sub absolute_pose.position
  let rotated := absolute_pose.rotation.mulVec translated
  let reprojected_feature := rotated.hnormalized
  let error := reprojected_feature.sub correspondence.feature
  error.squaredNorm

/-- The camera-frame depth of a correspondence's world point under a pose:
the third coordinate of `rotation · (worldPoint - position)`. -/
def cameraDepth (c : FeatureCorrespondence2D3D) (p : CalibratedAbsolutePose) : ℚ :=
  (p.rotation.mulVec (c.world_point.sub p.position)).z

/-- Squared Euclidean distance between two 2D points. -/
def sqDist (a b : Vec2) : ℚ :=
  (a.x - b.x) * (a.x - b.x) + (a.y - b.y) * (a.y - b.y)

/-- The predicted 2D feature written following the spec's words: translate
the world point into the camera frame as `worldPoint - position`, rotate into
camera orientation as `rotation · translated`, then perspective-divide by the
third (depth) coordinate.  Stated for comparison against `Error`. -/
def specPredictedFeature (c : FeatureCorrespondence2D3D)
    (p : CalibratedAbsolutePose) : Vec2 :=
  let translated := c.world_point.sub p.position
  let rotatedPoint := p.rotation.mulVec translated
  ⟨rotatedPoint.x / rotatedPoint.z, rotatedPoint.y / rotatedPoint.z⟩

/-- Conversion of one solver pair into a pose: the rotation is taken
unchanged and `position = -rotationᵗ · translation` (lines 96-98 of the
source). -/
def poseOfPair (rt : Mat3 × Vec3) : CalibratedAbsolutePose :=
  ⟨rt.1, (rt.1.transpose.mulVec rt.2).neg⟩

/-- All poses of a list carry proper rotations. -/
def AllProperRotations (l : List CalibratedAbsolutePose) : Prop :=
  ∀ pose ∈ l, IsProperRotation pose.rotation

/-- `theia::RansacType`: the variant selector, consumed only at engine
construction time. -/
inductive RansacType
  | RANSAC
  | PROSAC
  | LMED
  | EXHAUSTIVE
deriving DecidableEq

/-- `theia::RansacParameters`: configuration passed through unmodified to the
external engine; this code never inspects it, so a representative payload
suffices. -/
structure RansacParameters where
  error_thresh : ℚ
  max_iterations : ℕ
deriving DecidableEq

/-- `theia::RansacSummary`: result metadata produced entirely by the external
engine; this code never inspects it. -/
structure RansacSummary where
  inliers : List ℕ
  num_iterations : ℕ
deriving DecidableEq

/-- The (pose, summary, success) triple written through the output pointers
and the returned `bool` of an `Estimate` call. -/
structure EstimateOutput where
  absolute_pose : CalibratedAbsolutePose
  ransac_summary : RansacSummary
  success : Bool
deriving DecidableEq

/-- A constructed sample-consensus engine: its `Estimate` member on a
correspondence set. -/
def RansacEngine : Type := List FeatureCorrespondence2D3D → EstimateOutput

/-- Interface type of the external factory `CreateAndInitializeRansacVariant`
(the engine it builds is bound to the default-constructed model estimator). -/
def RansacFactory : Type := RansacType → RansacParameters → RansacEngine

/-- `ReusableCalibratedAbsolutePoseEstimatorImpl`: owns the engine built once
by the factory at construction. -/
structure ReusableCalibratedAbsolutePoseEstimatorImpl where
  ransac : RansacEngine

/-- The `ReusableCalibratedAbsolutePoseEstimatorImpl` constructor: builds the
engine via the external factory from the given parameters and variant. -/
def mkReusableImpl (factory : RansacFactory) (ransac_params : RansacParameters)
    (ransac_type : RansacType) : ReusableCalibratedAbsolutePoseEstimatorImpl :=
  ⟨factory ransac_type ransac_params⟩

/-- `ReusableCalibratedAbsolutePoseEstimatorImpl::estimate`: pure delegation
to the owned engine. -/
def ReusableCalibratedAbsolutePoseEstimatorImpl.estimate
    (self : ReusableCalibratedAbsolutePoseEstimatorImpl)
    (normalized_correspondences : List FeatureCorrespondence2D3D) :
    EstimateOutput :=
  self.ransac normalized_correspondences

/-- `ReusableCalibratedAbsolutePoseEstimator::build`: wraps the Impl
constructor. -/
def build (factory : RansacFactory) (ransac_params : RansacParameters)
    (ransac_type : RansacType) : ReusableCalibratedAbsolutePoseEstimatorImpl :=
  mkReusableImpl factory ransac_params ransac_type

/-- The one-shot free function `theia::EstimateCalibratedAbsolutePose`:
constructs a temporary Impl and calls `estimate` on it once (lines 158-159 of
the source). -/
def EstimateCalibratedAbsolutePose (factory : RansacFactory)
    (ransac_params : RansacParameters) (ransac_type : RansacType)
    (normalized_correspondences : List FeatureCorrespondence2D3D) :
    EstimateOutput :=
  (mkReusableImpl factory ransac_params ransac_type).estimate
    normalized_correspondences

/-! Concrete values used by witnesses and counterexamples. -/

/-- A solver that always reports failure. -/
def solverNone : P3PSolver := fun _ _ => none

/-- A solver that always returns an empty list of candidate pairs. -/
def solverEmptyList : P3PSolver := fun _ _ => some []

/-- Concrete correspondence: feature at the origin, world point at depth
`-1` behind an identity camera. -/
def corrBehind : FeatureCorrespondence2D3D := ⟨⟨0, 0⟩, ⟨0, 0, -1⟩⟩

/-- Concrete correspondence. -/
def corrA : FeatureCorrespondence2D3D := ⟨⟨1, 0⟩, ⟨1, 0, 1⟩⟩

/-- Concrete correspondence. -/
def corrB : FeatureCorrespondence2D3D := ⟨⟨0, 1⟩, ⟨0, 1, 1⟩⟩

/-- Concrete correspondence. -/
def corrC : FeatureCorrespondence2D3D := ⟨⟨1, 1⟩, ⟨1, 1, 1⟩⟩

/-- The identity pose at the world origin. -/
def poseId : CalibratedAbsolutePose := ⟨Mat3.identity, ⟨0, 0, 0⟩⟩

/-- Two concrete solver pairs with identity rotations. -/
def pairsEx : List (Mat3 × Vec3) :=
  [(Mat3.identity, ⟨1, 0, 0⟩), (Mat3.identity, ⟨0, 1, 0⟩)]

/-- A solver that always returns `pairsEx`. -/
def solverPairsEx : P3PSolver := fun _ _ => some pairsEx

/-- The empty scratch state of a freshly constructed estimator. -/
def s0 : EstimatorState := ⟨[], []⟩

/-! Theorems. -/

/-- Helper: when at least 3 correspondences are supplied and the solver
succeeds with `pairs`, `EstimateModel` returns exactly the pair-converted
poses and the emptiness flag. -/
theorem estimateModel_cons_some (solver : P3PSolver)
    (c0 c1 c2 : FeatureCorrespondence2D3D)
    (rest : List FeatureCorrespondence2D3D) (s : EstimatorState)
    (pairs : List (Mat3 × Vec3))
    (hsol : solver (c0.feature, c1.feature, c2.feature)
      (c0.world_point, c1.world_point, c2.world_point) = some pairs) :
    EstimateModel solver (c0 :: c1 :: c2 :: rest) s =
      (some (pairs.map poseOfPair, decide (0 < pairs.length)),
        ⟨pairs.map Prod.fst, pairs.map Prod.snd⟩) := by
  have hz : (pairs.map Prod.fst).zip (pairs.map Prod.snd)
      = pairs.map (fun a => (a.1, a.2)) := List.zip_map' _ _ _
  have hf : ((fun rt =>
        { rotation := rt.1, position := (rt.1.transpose.mulVec rt.2).neg
          : CalibratedAbsolutePose }) ∘ fun a : Mat3 × Vec3 => (a.1, a.2))
      = poseOfPair := by
    funext rt
    rfl
  simp only [EstimateModel, hsol, hz, List.map_map, hf, List.length_map]

/-- C1: residual scoring returns the squared Euclidean distance between the
observed feature and the predicted feature obtained by translating the world
point as `worldPoint - position`, rotating as `rotation · translated`, and
perspective-dividing by the depth coordinate, in exactly that order. -/
theorem Error_eq_sqDist_spec_prediction (c : FeatureCorrespondence2D3D)
    (p : CalibratedAbsolutePose) :
    Error c p = sqDist c.feature (specPredictedFeature c p) := by
  simp only [Error, specPredictedFeature, sqDist, Vec2.sub, Vec2.squaredNorm,
    Vec3.hnormalized, Mat3.mulVec, Vec3.dot, Vec3.sub]
  ring

/-- C2 counterexample: at a pose and correspondence with camera-frame depth
`-1` (strictly negative), residual scoring returns `0`, not a large-but-finite
sentinel value. -/
theorem Error_nonpositive_depth_counterexample :
    cameraDepth corrBehind poseId < 0 ∧ Error corrBehind poseId = 0 := by
  constructor
  · simp [cameraDepth, corrBehind, poseId, Mat3.mulVec, Vec3.dot, Vec3.sub,
      Mat3.identity]
  · simp [Error, corrBehind, poseId, Mat3.mulVec, Vec3.dot, Vec3.sub,
      Mat3.identity, Vec3.hnormalized, Vec2.sub, Vec2.squaredNorm]

/-- C2 amended: residual scoring applies no depth policy.  Even when the
camera-frame depth is non-positive it returns the same unguarded
perspective-division result as in the general case. -/
theorem Error_unguarded_at_nonpositive_depth (c : FeatureCorrespondence2D3D)
    (p : CalibratedAbsolutePose) (_h : cameraDepth c p ≤ 0) :
    Error c p = sqDist c.feature (specPredictedFeature c p) := by
  simp only [Error, specPredictedFeature, sqDist, Vec2.sub, Vec2.squaredNorm,
    Vec3.hnormalized, Mat3.mulVec, Vec3.dot, Vec3.sub]
  ring

/-- C2 witness: a concrete input with non-positive depth at which the amended
theorem applies. -/
theorem Error_unguarded_at_nonpositive_depth_witness :
    cameraDepth corrBehind poseId ≤ 0 ∧
      Error corrBehind poseId =
        sqDist corrBehind.feature (specPredictedFeature corrBehind poseId) := by
  refine ⟨?_, Error_unguarded_at_nonpositive_depth corrBehind poseId ?_⟩ <;>
    simp [cameraDepth, corrBehind, poseId, Mat3.mulVec, Vec3.dot, Vec3.sub,
      Mat3.identity]

/-- C3 counterexample: on the empty correspondence list, `EstimateModel`
performs the out-of-bounds read (modelled `none`); it does not return a
defined empty candidate set with a `false` success flag. -/
theorem EstimateModel_short_input_counterexample :
    (EstimateModel solverNone [] s0).1 = none ∧
      (EstimateModel solverNone [] s0).1 ≠ some ([], false) := by
  constructor
  · rfl
  · intro h
    simp [EstimateModel, s0] at h

/-- C3 amended: for every input of fewer than 3 correspondences,
`EstimateModel` reads `correspondences[0..2]` past the end of the input —
undefined behaviour (`none` in the model) — instead of returning an empty
candidate set; the robust engine must supply at least the minimal sample
size. -/
theorem EstimateModel_short_input_faults (solver : P3PSolver)
    (corrs : List FeatureCorrespondence2D3D) (s : EstimatorState)
    (h : corrs.length < 3) :
    (EstimateModel solver corrs s).1 = none := by
  match corrs with
  | [] => rfl
  | [_] => rfl
  | [_, _] => rfl
  | _ :: _ :: _ :: _ => simp at h; omega

/-- C3 witness: the amended theorem applied to the empty input. -/
theorem EstimateModel_short_input_faults_witness :
    ([] : List FeatureCorrespondence2D3D).length < 3 ∧
      (EstimateModel solverNone [] s0).1 = none :=
  ⟨by decide, EstimateModel_short_input_faults solverNone [] s0 (by decide)⟩

/-- C4: when the solver returns `pairs` (with `pairs.length ≤ 4`), hypothesis
generation produces exactly one pose per pair — rotation unchanged, position
`= -rotationᵗ · translation` — hence at most 4 candidate poses. -/
theorem EstimateModel_one_pose_per_solver_pair (solver : P3PSolver)
    (c0 c1 c2 : FeatureCorrespondence2D3D)
    (rest : List FeatureCorrespondence2D3D) (s : EstimatorState)
    (pairs : List (Mat3 × Vec3))
    (hsol : solver (c0.feature, c1.feature, c2.feature)
      (c0.world_point, c1.world_point, c2.world_point) = some pairs)
    (hk : pairs.length ≤ 4) :
    (EstimateModel solver (c0 :: c1 :: c2 :: rest) s).1 =
        some (pairs.map poseOfPair, decide (0 < pairs.length)) ∧
      (pairs.map poseOfPair).length = pairs.length ∧
      (pairs.map poseOfPair).length ≤ 4 := by
  rw [estimateModel_cons_some solver c0 c1 c2 rest s pairs hsol]
  exact ⟨rfl, List.length_map _ _, by rw [List.length_map]; exact hk⟩

/-- C4 witness: a concrete solver returning two pairs yields exactly the two
converted poses. -/
theorem EstimateModel_one_pose_per_solver_pair_witness :
    (EstimateModel solverPairsEx [corrA, corrB, corrC] s0).1 =
        some (pairsEx.map poseOfPair, decide (0 < pairsEx.length)) ∧
      (pairsEx.map poseOfPair).length = pairsEx.length ∧
      (pairsEx.map poseOfPair).length ≤ 4 :=
  EstimateModel_one_pose_per_solver_pair solverPairsEx corrA corrB corrC []
    s0 pairsEx rfl (by decide)

/-- C5: `SampleSize` returns exactly 3 for every estimator state. -/
theorem SampleSize_eq_three (s : EstimatorState) : SampleSize s = 3 := rfl

/-- C6: when the solver reports no valid geometric solution — either failure
or an empty solution list — hypothesis generation yields zero candidate poses
and a `false` success flag, with a defined (non-faulting) result. -/
theorem EstimateModel_no_solution_empty (solver : P3PSolver)
    (c0 c1 c2 : FeatureCorrespondence2D3D)
    (rest : List FeatureCorrespondence2D3D) (s : EstimatorState)
    (h : solver (c0.feature, c1.feature, c2.feature)
        (c0.world_point, c1.world_point, c2.world_point) = none ∨
      solver (c0.feature, c1.feature, c2.feature)
        (c0.world_point, c1.world_point, c2.world_point) = some []) :
    (EstimateModel solver (c0 :: c1 :: c2 :: rest) s).1 = some ([], false) := by
  rcases h with h | h
  · simp [EstimateModel, h]
  · rw [estimateModel_cons_some solver c0 c1 c2 rest s [] h]
    rfl

/-- C6 witness: both no-solution shapes at concrete inputs. -/
theorem EstimateModel_no_solution_empty_witness :
    (EstimateModel solverNone [corrA, corrB, corrC] s0).1 = some ([], false) ∧
      (EstimateModel solverEmptyList [corrA, corrB, corrC] s0).1 =
        some ([], false) :=
  ⟨EstimateModel_no_solution_empty solverNone corrA corrB corrC [] s0
      (Or.inl rfl),
    EstimateModel_no_solution_empty solverEmptyList corrA corrB corrC [] s0
      (Or.inr rfl)⟩

/-- C7: the one-shot function returns exactly what building a reusable
estimator with the same parameters and variant and invoking `estimate` once
on the same correspondences returns. -/
theorem EstimateCalibratedAbsolutePose_eq_build_then_estimate
    (factory : RansacFactory) (ransac_params : RansacParameters)
    (ransac_type : RansacType)
    (normalized_correspondences : List FeatureCorrespondence2D3D) :
    EstimateCalibratedAbsolutePose factory ransac_params ransac_type
        normalized_correspondences =
      (build factory ransac_params ransac_type).estimate
        normalized_correspondences := rfl

/-- C8: hypothesis generation is a pure function of the solver and the input
correspondences; the scratch state left by any earlier invocation never
influences the result, and a second call after an arbitrary first call equals
a call on a fresh estimator. -/
theorem EstimateModel_no_cross_call_state :
    (∀ (solver : P3PSolver) (corrs : List FeatureCorrespondence2D3D)
      (s s' : EstimatorState),
      (EstimateModel solver corrs s).1 = (EstimateModel solver corrs s').1) ∧
    (∀ (solver : P3PSolver)
      (corrs1 corrs2 : List FeatureCorrespondence2D3D) (s : EstimatorState),
      (EstimateModel solver corrs2 (EstimateModel solver corrs1 s).2).1 =
        (EstimateModel solver corrs2 s0).1) := by
  have key : ∀ (solver : P3PSolver) (corrs : List FeatureCorrespondence2D3D)
      (s s' : EstimatorState),
      (EstimateModel solver corrs s).1 = (EstimateModel solver corrs s').1 := by
    intro solver corrs s s'
    match corrs with
    | [] => rfl
    | [_] => rfl
    | [_, _] => rfl
    | _ :: _ :: _ :: _ => rfl
  exact ⟨key, fun solver corrs1 corrs2 s => key solver corrs2 _ s0⟩

/-- C9: if the solver only ever returns proper rotations (orthonormal,
determinant `+1`), every pose produced by hypothesis generation carries a
proper rotation, taken unchanged from the solver. -/
theorem EstimateModel_rotations_proper (solver : P3PSolver)
    (corrs : List FeatureCorrespondence2D3D) (s : EstimatorState)
    (out : List CalibratedAbsolutePose) (b : Bool)
    (hsolver : ∀ f w pairs, solver f w = some pairs →
      ∀ rt ∈ pairs, IsProperRotation rt.1)
    (hrun : (EstimateModel solver corrs s).1 = some (out, b)) :
    AllProperRotations out := by
  match corrs with
  | [] => exact absurd hrun (by simp [EstimateModel])
  | [_] => exact absurd hrun (by simp [EstimateModel])
  | [_, _] => exact absurd hrun (by simp [EstimateModel])
  | c0 :: c1 :: c2 :: rest =>
    cases hsol : solver (c0.feature, c1.feature, c2.feature)
        (c0.world_point, c1.world_point, c2.world_point) with
    | none =>
      simp [EstimateModel, hsol] at hrun
      intro pose hpose
      rw [hrun.1] at hpose
      simp at hpose
    | some pairs =>
      rw [estimateModel_cons_some solver c0 c1 c2 rest s pairs hsol] at hrun
      intro pose hpose
      have hout : out = pairs.map poseOfPair := by
        have := hrun
        simp only [Option.some.injEq, Prod.mk.injEq] at this
        exact this.1.symm
      rw [hout] at hpose
      obtain ⟨rt, hrt, hpe⟩ := List.mem_map.mp hpose
      rw [← hpe]
      exact hsolver _ _ pairs hsol rt hrt

/-- C9 witness: with a solver returning identity rotations, every generated
pose carries a proper rotation. -/
theorem EstimateModel_rotations_proper_witness :
    AllProperRotations (pairsEx.map poseOfPair) := by
  refine EstimateModel_rotations_proper solverPairsEx [corrA, corrB, corrC]
    s0 (pairsEx.map poseOfPair) true ?_ ?_
  · intro f w pairs hp rt hrt
    have hpairs : pairs = pairsEx := by
      simpa [solverPairsEx] using hp.symm
    rw [hpairs] at hrt
    simp [pairsEx] at hrt
    rcases hrt with rfl | rfl <;>
      exact ⟨by simp [Mat3.identity, Mat3.transpose, Mat3.mul, Vec3.dot],
        by simp [Mat3.identity, Mat3.det]⟩
  · rw [estimateModel_cons_some solverPairsEx corrA corrB corrC [] s0
      pairsEx rfl]
    rfl

/-- C10: with at least 3 correspondences, the result of hypothesis generation
depends only on the first three correspondences; extra correspondences and
incoming scratch state are ignored. -/
theorem EstimateModel_first_three_only (solver : P3PSolver)
    (l1 l2 : List FeatureCorrespondence2D3D) (s s' : EstimatorState)
    (h1 : 3 ≤ l1.length) (h2 : 3 ≤ l2.length)
    (h : l1.take 3 = l2.take 3) :
    (EstimateModel solver l1 s).1 = (EstimateModel solver l2 s').1 := by
  match l1, l2 with
  | [], _ => simp at h1
  | [_], _ => simp at h1
  | [_, _], _ => simp at h1
  | _ :: _ :: _ :: _, [] => simp at h2
  | _ :: _ :: _ :: _, [_] => simp at h2
  | _ :: _ :: _ :: _, [_, _] => simp at h2
  | a :: b :: c :: r, a' :: b' :: c' :: r' =>
    have h3 : [a, b, c] = [a', b', c'] := h
    simp only [List.cons.injEq, and_true] at h3
    obtain ⟨rfl, rfl, rfl⟩ := h3
    rfl

/-- C10 witness: a 3-element list and a 4-element extension with the same
first three correspondences give the same result. -/
theorem EstimateModel_first_three_only_witness :
    3 ≤ ([corrA, corrB, corrC] :
        List FeatureCorrespondence2D3D).length ∧
      3 ≤ ([corrA, corrB, corrC, corrBehind] :
        List FeatureCorrespondence2D3D).length ∧
      (EstimateModel solverPairsEx [corrA, corrB, corrC] s0).1 =
        (EstimateModel solverPairsEx [corrA, corrB, corrC, corrBehind] s0).1 :=
  ⟨by decide, by decide,
    EstimateModel_first_three_only solverPairsEx
      [corrA, corrB, corrC] [corrA, corrB, corrC, corrBehind] s0 s0
      (by decide) (by decide) rfl⟩

end TheiaPose
